import Mathlib

/-!
Verification of `dump_parsed.py`: a one-shot utility that loads a pickle of
parsed C++ module metadata and dumps a normalized, deterministically ordered
YAML document for cross-platform comparison.

The data model and every `serialize_*` function below are shallow embeddings of
the corresponding Python functions.  Python dict/OrderedDict values are modelled
by the inductive `Val`; an `OrderedDict` is an association list in insertion
order (`odictFrom` reproduces the constructor's duplicate-key semantics).
Python's `sorted` is a stable sort; it is modelled by Mathlib's
`List.insertionSort` (also stable), which produces the same list for the same
key comparisons.
-/

/-- `FunctionInfo` record: each argument is (name, type, optional default). -/
structure FunctionInfo where
  name : String
  return_type : String
  args : List (String × String × Option String)
  inline : Bool
  nspace : String
deriving DecidableEq, Repr

/-- `MethodInfo` record (also used for constructors, static methods, operators). -/
structure MethodInfo where
  name : String
  return_type : String
  args : List (String × String × Option String)
  const : Bool
  virtual : Bool
  pure_virtual : Bool
  inline : Bool
deriving DecidableEq, Repr

/-- `FieldInfo` record. -/
structure FieldInfo where
  name : String
  type : String
  const : Bool
  pod : Bool
deriving DecidableEq, Repr

/-- `EnumInfo` record: `values` is the stored list of (label, value) pairs. -/
structure EnumInfo where
  name : String
  values : List (String × String)
  anonymous : Bool
deriving DecidableEq, Repr

/-- `TypedefInfo` record; the optional template fields model the
dynamically-probed (`hasattr`) attributes of the Python object, with `none`
standing for an absent attribute. -/
structure TypedefInfo where
  name : String
  type : String
  pod : Bool
  template_base : Option String
  template_args : List String
deriving DecidableEq, Repr

/-- `ClassInfo` record. -/
structure ClassInfo where
  name : String
  abstract : Bool
  superclass : List String
  constructors : List MethodInfo
  methods : List MethodInfo
  static_methods : List MethodInfo
  operators : List MethodInfo
  fields : List FieldInfo
  enums : List EnumInfo
deriving DecidableEq, Repr

/-- `ClassTemplateInfo`: a class plus type parameters (kind, name, default). -/
structure ClassTemplateInfo extends ClassInfo where
  type_params : List (String × String × Option String)
deriving DecidableEq, Repr

/-- `ModuleInfo` record. -/
structure ModuleInfo where
  name : String
  dependencies_headers : List String
  namespaces : List String
  headers : List String
  classes : List ClassInfo
  class_templates : List ClassTemplateInfo
  typedefs : List TypedefInfo
  enums : List EnumInfo
  functions : List FunctionInfo
  operators : List FunctionInfo
deriving DecidableEq, Repr

/-- Plain-data values produced by the serializers: Python str, bool, int,
list/tuple and (ordered) dict.  A dict is its key/value list in order. -/
inductive Val where
  | null : Val
  | str : String → Val
  | bool : Bool → Val
  | nat : Nat → Val
  | list : List Val → Val
  | dict : List (String × Val) → Val

/-- Stable sort by a key drawn from a linear order; models Python
`sorted(l, key=key)` (both are stable sorts driven by the same comparisons). -/
def sortOn {α : Type} {β : Type} [LinearOrder β] (key : α → β) (l : List α) : List α :=
  @List.insertionSort α (fun a b => key a ≤ key b)
    (fun a b => inferInstanceAs (Decidable (key a ≤ key b))) l

/-- Python tuple comparison on (name, arg_count) pairs. -/
def pairLe (p q : String × Nat) : Prop :=
  p.1 < q.1 ∨ (p.1 = q.1 ∧ p.2 ≤ q.2)

instance pairLe.instDecidableRel : DecidableRel pairLe := fun p q =>
  inferInstanceAs (Decidable (p.1 < q.1 ∨ (p.1 = q.1 ∧ p.2 ≤ q.2)))

/-- Stable sort of (name, arg_count) pairs by Python tuple comparison. -/
def sortPairs (l : List (String × Nat)) : List (String × Nat) :=
  List.insertionSort pairLe l

/-- Association-list lookup, as Python `d[k]` / `k in d` over our dict model. -/
def lookupKey (k : String) : List (String × Val) → Option Val
  | [] => none
  | (k', v) :: t => if k' = k then some v else lookupKey k t

/-- Python `d[k] = v` on an `OrderedDict`: replace in place if the key exists,
else append at the end. -/
def odAssign (l : List (String × Val)) (k : String) (v : Val) : List (String × Val) :=
  if l.any fun p => decide (p.1 = k) then
    l.map fun p => if p.1 = k then (p.1, v) else p
  else l ++ [(k, v)]

/-- Python `OrderedDict(pairs)`: insert the pairs left to right. -/
def odictFrom (l : List (String × Val)) : List (String × Val) :=
  l.foldl (fun acc kv => odAssign acc kv.1 kv.2) []

/-- `serialize_function`: name, return type, args without defaults, flags. -/
def serialize_function (func : FunctionInfo) : Val :=
  .dict [("name", .str func.name),
         ("return_type", .str func.return_type),
         ("args", .list (func.args.map fun a => .list [.str a.1, .str a.2.1])),
         ("inline", .bool func.inline),
         ("namespace", .str func.nspace)]

/-- `serialize_method`: name, return type, args without defaults, flags. -/
def serialize_method (method : MethodInfo) : Val :=
  .dict [("name", .str method.name),
         ("return_type", .str method.return_type),
         ("args", .list (method.args.map fun a => .list [.str a.1, .str a.2.1])),
         ("const", .bool method.const),
         ("virtual", .bool method.virtual),
         ("pure_virtual", .bool method.pure_virtual),
         ("inline", .bool method.inline)]

/-- `serialize_field`. -/
def serialize_field (field : FieldInfo) : Val :=
  .dict [("name", .str field.name),
         ("type", .str field.type),
         ("const", .bool field.const),
         ("pod", .bool field.pod)]

/-- `serialize_enum`: the stored (label, value) pairs are emitted as-is. -/
def serialize_enum (enum : EnumInfo) : Val :=
  .dict [("name", .str enum.name),
         ("values", .list (enum.values.map fun p => .list [.str p.1, .str p.2])),
         ("anonymous", .bool enum.anonymous)]

/-- `serialize_typedef`: the template fields are emitted only when present and
truthy (Python: `hasattr(...) and typedef.template_base`). -/
def serialize_typedef (typedef : TypedefInfo) : Val :=
  .dict ([("name", .str typedef.name),
          ("type", .str typedef.type),
          ("pod", .bool typedef.pod)]
    ++ (match typedef.template_base with
        | some s => if s.isEmpty then [] else [("template_base", .str s)]
        | none => [])
    ++ (if typedef.template_args.isEmpty then []
        else [("template_args", .list (typedef.template_args.map .str))]))

/-- The projection applied to a constructor: only its argument types
(`[typ for _, typ, _ in c.args]`). -/
def constructor_signature (c : MethodInfo) : List String :=
  c.args.map fun a => a.2.1

/-- CPython quote selection for `repr` of a string: single quotes, unless the
string contains a single quote (39) and no double quote (34). -/
def pyQuoteChar (s : String) : Char :=
  if s.data.contains (Char.ofNat 39) ∧ ¬ s.data.contains (Char.ofNat 34)
  then Char.ofNat 34 else Char.ofNat 39

/-- Lowercase hexadecimal digit, as produced by CPython escape sequences. -/
def pyHexDigit (n : Nat) : Char :=
  if n < 10 then Char.ofNat (48 + n) else Char.ofNat (87 + n)

/-- CPython `repr` rendering of one character inside a string quoted with
`quote`: escape the quote and the backslash (92), render tab/newline/return
as \t (116), \n (110), \r (114), other ASCII non-printables as \xXX (120),
and keep everything else verbatim. -/
def pyCharRepr (quote : Char) (c : Char) : String :=
  if c = quote ∨ c = Char.ofNat 92 then String.mk [Char.ofNat 92, c]
  else if c = Char.ofNat 9 then String.mk [Char.ofNat 92, Char.ofNat 116]
  else if c = Char.ofNat 10 then String.mk [Char.ofNat 92, Char.ofNat 110]
  else if c = Char.ofNat 13 then String.mk [Char.ofNat 92, Char.ofNat 114]
  else if c.toNat < 32 ∨ c.toNat = 127 then
    String.mk [Char.ofNat 92, Char.ofNat 120, pyHexDigit (c.toNat / 16), pyHexDigit (c.toNat % 16)]
  else String.singleton c

/-- Python `repr` of a string: CPython quote selection and escaping.
Non-ASCII printable characters are kept verbatim, as CPython does; non-ASCII
non-printable characters (which CPython would also escape) are kept verbatim
here and are the one unmodelled corner, noted because the C++ type names this
is applied to are ASCII. -/
def pyReprStr (s : String) : String :=
  String.singleton (pyQuoteChar s) ++ String.join (s.data.map (pyCharRepr (pyQuoteChar s)))
    ++ String.singleton (pyQuoteChar s)

/-- Python `str` of a list of such strings. -/
def pyStrList (ts : List String) : String :=
  "[" ++ String.intercalate ", " (ts.map pyReprStr) ++ "]"

/-- Python `str({\x27arg_types\x27: ts})`, the sort key used for constructor
signatures in `serialize_class`. -/
def pySigStr (ts : List String) : String :=
  "\x7b\x27arg_types\x27: " ++ pyStrList ts ++ "\x7d"

/-- The rendering of one constructor-signature entry. -/
def renderCtorSig (ts : List String) : Val :=
  .dict [("arg_types", .list (ts.map .str))]

/-- The rendering of one (name, arg_count) entry of
`function_names` / `operator_names`. -/
def renderNameCount (p : String × Nat) : Val :=
  .dict [("name", .str p.1), ("arg_count", .nat p.2)]

/-- `serialize_class`: base keys and counts, then one key per non-empty
collection, in the source's order. -/
def serialize_class (cls : ClassInfo) : Val :=
  .dict (
    [("name", .str cls.name),
     ("abstract", .bool cls.abstract),
     ("superclass", .list ((sortOn id cls.superclass).map .str)),
     ("counts", .dict [
        ("constructors", .nat cls.constructors.length),
        ("methods", .nat cls.methods.length),
        ("static_methods", .nat cls.static_methods.length),
        ("operators", .nat cls.operators.length),
        ("fields", .nat cls.fields.length),
        ("enums", .nat cls.enums.length)])]
    ++ (if cls.fields.isEmpty then [] else
         [("fields", .list ((sortOn FieldInfo.name cls.fields).map serialize_field))])
    ++ (if cls.enums.isEmpty then [] else
         [("enums", .list ((sortOn EnumInfo.name cls.enums).map serialize_enum))])
    ++ (if cls.constructors.isEmpty then [] else
         [("constructor_signatures",
           .list ((sortOn pySigStr (cls.constructors.map constructor_signature)).map renderCtorSig))])
    ++ (if cls.methods.isEmpty then [] else
         [("method_names", .list ((sortOn id (cls.methods.map MethodInfo.name)).map .str))])
    ++ (if cls.static_methods.isEmpty then [] else
         [("static_method_names", .list ((sortOn id (cls.static_methods.map MethodInfo.name)).map .str))])
    ++ (if cls.operators.isEmpty then [] else
         [("operator_names", .list ((sortOn id (cls.operators.map MethodInfo.name)).map .str))]))

/-- The rendering of one type parameter of a class template. -/
def renderTypeParam (p : String × String × Option String) : Val :=
  .dict [("type", .str p.1),
         ("name", .str p.2.1),
         ("default", match p.2.2 with | some d => .str d | none => .null)]

/-- `serialize_class_template`: the class serialization with a `type_params`
key assigned afterwards (declaration order preserved). -/
def serialize_class_template (cls_tmpl : ClassTemplateInfo) : Val :=
  match serialize_class cls_tmpl.toClassInfo with
  | .dict l => .dict (odAssign l "type_params" (.list (cls_tmpl.type_params.map renderTypeParam)))
  | v => v

/-- `serialize_module`: base keys and counts, then one key per non-empty
collection, in the source's order. -/
def serialize_module (module : ModuleInfo) : Val :=
  .dict (
    [("name", .str module.name),
     ("dependencies", .list ((sortOn id module.dependencies_headers).map .str)),
     ("namespaces", .list ((sortOn id module.namespaces).map .str)),
     ("counts", .dict [
        ("headers", .nat module.headers.length),
        ("classes", .nat module.classes.length),
        ("class_templates", .nat module.class_templates.length),
        ("typedefs", .nat module.typedefs.length),
        ("enums", .nat module.enums.length),
        ("functions", .nat module.functions.length),
        ("operators", .nat module.operators.length)])]
    ++ (if module.classes.isEmpty then [] else
         [("classes", .dict (odictFrom ((sortOn ClassInfo.name module.classes).map
             fun cls => (cls.name, serialize_class cls))))])
    ++ (if module.class_templates.isEmpty then [] else
         [("class_templates", .dict (odictFrom ((sortOn (fun t => t.name) module.class_templates).map
             fun tmpl => (tmpl.name, serialize_class_template tmpl))))])
    ++ (if module.typedefs.isEmpty then [] else
         [("typedefs", .list ((sortOn TypedefInfo.name module.typedefs).map serialize_typedef))])
    ++ (if module.enums.isEmpty then [] else
         [("enums", .list ((sortOn EnumInfo.name module.enums).map serialize_enum))])
    ++ (if module.functions.isEmpty then [] else
         [("function_names",
           .list ((sortPairs (module.functions.map fun f => (f.name, f.args.length))).map renderNameCount))])
    ++ (if module.operators.isEmpty then [] else
         [("operator_names",
           .list ((sortPairs (module.operators.map fun f => (f.name, f.args.length))).map renderNameCount))]))

/-- Outcome of one process run: exit code, final destination-file content
(`none` = the file does not exist), and the lines printed to stdout. -/
structure RunResult where
  exitCode : Nat
  dest : Option String
  stdout : List String
deriving DecidableEq, Repr

/-- The `summary` block of `dump_parsed_pkl`. -/
def buildSummary (modules : List ModuleInfo) : Val :=
  .dict [("total_modules", .nat modules.length),
         ("total_classes", .nat (modules.map fun m => m.classes.length).sum),
         ("total_class_templates", .nat (modules.map fun m => m.class_templates.length).sum),
         ("total_typedefs", .nat (modules.map fun m => m.typedefs.length).sum),
         ("total_enums", .nat (modules.map fun m => m.enums.length).sum),
         ("total_functions", .nat (modules.map fun m => m.functions.length).sum)]

/-- The `modules` mapping of `dump_parsed_pkl`: module name to canonical
detail, in sorted-name order. -/
def serialized_modules (modules : List ModuleInfo) : List (String × Val) :=
  odictFrom ((sortOn ModuleInfo.name modules).map fun m => (m.name, serialize_module m))

/-- The full output structure written to YAML. -/
def buildOutput (modules : List ModuleInfo) : Val :=
  .dict [("summary", buildSummary modules),
         ("modules", .dict (serialized_modules modules))]

/-- The status lines printed after a successful write. -/
def summaryLines (modules : List ModuleInfo) : List String :=
  ["Done!", "\nSummary:",
   "  Modules: " ++ toString modules.length,
   "  Classes: " ++ toString (modules.map fun m => m.classes.length).sum,
   "  Class Templates: " ++ toString (modules.map fun m => m.class_templates.length).sum,
   "  Typedefs: " ++ toString (modules.map fun m => m.typedefs.length).sum,
   "  Enums: " ++ toString (modules.map fun m => m.enums.length).sum,
   "  Functions: " ++ toString (modules.map fun m => m.functions.length).sum]

/-- Model of `dump_parsed_pkl(pkl_path, output_path)`.

The two external library calls are parameters: `pickleResult` is the outcome of
`pickle.load` (`none` = it raises), `yamlRender` the outcome of `yaml.dump` on
the output value (`none` = it raises), and `partialOut` is whatever content had
been flushed to the destination when `yaml.dump` raises.  `dest` is the
destination file's prior content (`none` = the file does not exist).  An
uncaught exception terminates the interpreter with exit code 1; note that
`open(output_path, 'w')` creates/truncates the destination before `yaml.dump`
runs, so a serialization failure leaves the (partial) file behind. -/
def dump_parsed_pkl (pickleResult : Option (List ModuleInfo)) (yamlRender : Val → Option String)
    (partialOut : String) (pkl_path output_path : String) (dest : Option String) : RunResult :=
  let out0 := ["Loading " ++ pkl_path ++ "..."]
  match pickleResult with
  | none => ⟨1, dest, out0⟩
  | some modules =>
    let output := buildOutput modules
    let out1 := out0 ++ ["Found " ++ toString modules.length ++ " modules",
                         "Serializing modules...",
                         "Writing to " ++ output_path ++ "..."]
    match yamlRender output with
    | none => ⟨1, some partialOut, out1⟩
    | some s => ⟨0, some s, out1 ++ summaryLines modules⟩

/-- The usage text printed when no path argument is supplied. -/
def usageLines : List String :=
  ["Usage: python dump_parsed.py <parsed_output.pkl> [output.yml]",
   "\nExample:",
   "  python dump_parsed.py parsed_output.pkl parsed_dump.yml"]

/-- `Path.with_name`: replace the final path component (a trailing slash
does not count as a component, as in pathlib).  Degenerate inputs on which
pathlib raises `ValueError` (no proper final component, e.g. "." or "/") are
outside the modelled domain; the model is total and returns the bare name
there. -/
def path_with_name (p : String) (n : String) : String :=
  let comps := p.splitOn "/"
  let comps := if comps.getLast? = some "" then comps.dropLast else comps
  String.intercalate "/" (comps.dropLast ++ [n])

/-- Model of `main()` (named `main_fn` since Lean reserves `main` for an IO
entry point).  `argv` includes the program name at index 0, as `sys.argv`
does; `pathExists` models `Path.exists`. -/
def main_fn (argv : List String) (pathExists : String → Bool)
    (pickleResult : Option (List ModuleInfo)) (yamlRender : Val → Option String)
    (partialOut : String) (dest : Option String) : RunResult :=
  if argv.length < 2 then ⟨1, dest, usageLines⟩
  else
    let pkl_path := argv.getD 1 ""
    if pathExists pkl_path then
      let output_path := if 2 < argv.length then argv.getD 2 ""
                         else path_with_name pkl_path "parsed_dump.yml"
      dump_parsed_pkl pickleResult yamlRender partialOut pkl_path output_path dest
    else ⟨1, dest, ["Error: File not found: " ++ pkl_path]⟩

/-- `Val.lookup`: look a key up in a dict value (Python `d[k]` when present). -/
def Val.lookup : Val → String → Option Val
  | .dict l, k => lookupKey k l
  | _, _ => none

mutual

/-- Does a string occur anywhere (as a str leaf or dict key) in a value? -/
def Val.containsStr : Val → String → Bool
  | .null, _ => false
  | .str t, s => t = s
  | .bool _, _ => false
  | .nat _, _ => false
  | .list l, s => valListContainsStr l s
  | .dict l, s => valDictContainsStr l s

/-- `Val.containsStr` over the elements of a list value. -/
def valListContainsStr : List Val → String → Bool
  | [], _ => false
  | v :: t, s => v.containsStr s || valListContainsStr t s

/-- `Val.containsStr` over the entries of a dict value. -/
def valDictContainsStr : List (String × Val) → String → Bool
  | [], _ => false
  | (k, v) :: t, s => k = s || v.containsStr s || valDictContainsStr t s

end

/-- Two lists that are permutations of each other, both sorted for a relation
that is antisymmetric on the members of the first, are equal. -/
theorem eq_of_perm_of_sorted_anti {α : Type} {r : α → α → Prop} {l₁ : List α} :
    ∀ {l₂ : List α}, l₁.Perm l₂ →
      (∀ a ∈ l₁, ∀ b ∈ l₁, r a b → r b a → a = b) →
      l₁.Pairwise r → l₂.Pairwise r → l₁ = l₂ := by
  induction l₁ with
  | nil =>
    intro l₂ hp _ _ _
    exact (List.nil_perm.mp hp).symm
  | cons a t ih =>
    intro l₂ hp hanti hs₁ hs₂
    cases l₂ with
    | nil => exact absurd (List.perm_nil.mp hp) (by simp)
    | cons b t₂ =>
      have hab : a = b := by
        rcases List.mem_cons.mp (hp.subset (List.mem_cons_self a t)) with h1 | h1
        · exact h1
        rcases List.mem_cons.mp (hp.symm.subset (List.mem_cons_self b t₂)) with h2 | h2
        · exact h2.symm
        have hba : r b a := (List.pairwise_cons.mp hs₂).1 a h1
        have hab' : r a b := (List.pairwise_cons.mp hs₁).1 b h2
        exact hanti a (List.mem_cons_self a t) b (List.mem_cons_of_mem a h2) hab' hba
      subst hab
      have htt : t = t₂ :=
        ih hp.cons_inv
          (fun x hx y hy => hanti x (List.mem_cons_of_mem a hx) y (List.mem_cons_of_mem a hy))
          (List.Pairwise.of_cons hs₁) (List.Pairwise.of_cons hs₂)
      rw [htt]

/-- `sortOn` produces a permutation of its input. -/
theorem sortOn_perm {α β : Type} [LinearOrder β] (key : α → β) (l : List α) :
    (sortOn key l).Perm l :=
  List.perm_insertionSort _ l

/-- `sortOn` sorts by the key. -/
theorem sortOn_sorted {α β : Type} [LinearOrder β] (key : α → β) (l : List α) :
    (sortOn key l).Pairwise fun a b => key a ≤ key b := by
  haveI : IsTotal α fun a b => key a ≤ key b := ⟨fun a b => le_total (key a) (key b)⟩
  haveI : IsTrans α fun a b => key a ≤ key b := ⟨fun _ _ _ h₁ h₂ => le_trans h₁ h₂⟩
  exact List.sorted_insertionSort (fun a b => key a ≤ key b) l

/-- `sortOn` preserves length. -/
theorem sortOn_length {α β : Type} [LinearOrder β] (key : α → β) (l : List α) :
    (sortOn key l).length = l.length :=
  (sortOn_perm key l).length_eq

/-- Two permuted lists on which the key is injective sort to the same list. -/
theorem sortOn_eq_of_perm {α β : Type} [LinearOrder β] (key : α → β) {l₁ l₂ : List α}
    (hp : l₁.Perm l₂)
    (hinj : ∀ a ∈ l₁, ∀ b ∈ l₁, key a = key b → a = b) :
    sortOn key l₁ = sortOn key l₂ := by
  apply eq_of_perm_of_sorted_anti (r := fun a b => key a ≤ key b)
  · exact (sortOn_perm key l₁).trans (hp.trans (sortOn_perm key l₂).symm)
  · intro a ha b hb h₁ h₂
    exact hinj a ((sortOn_perm key l₁).subset ha) b ((sortOn_perm key l₁).subset hb)
      (le_antisymm h₁ h₂)
  · exact sortOn_sorted key l₁
  · exact sortOn_sorted key l₂

/-- Sorting by a key then mapping equals mapping then sorting by the
corresponding key on images. -/
theorem map_sortOn {α β γ : Type} [LinearOrder γ] (f : α → β) (keyA : α → γ) (keyB : β → γ)
    (hkey : ∀ a, keyA a = keyB (f a)) (l : List α) :
    (sortOn keyA l).map f = sortOn keyB (l.map f) := by
  unfold sortOn
  exact @List.map_insertionSort α β (fun a b => keyA a ≤ keyA b) (fun a b => keyB a ≤ keyB b)
    (fun a b => inferInstanceAs (Decidable (keyA a ≤ keyA b)))
    (fun a b => inferInstanceAs (Decidable (keyB a ≤ keyB b)))
    f l (fun a _ b _ => by simp only []; rw [hkey a, hkey b])

/-- Permutation preserves `isEmpty`. -/
theorem isEmpty_eq_of_perm {α : Type} {l₁ l₂ : List α} (h : l₁.Perm l₂) :
    l₁.isEmpty = l₂.isEmpty := by
  cases l₁ <;> cases l₂ <;> simp_all

/-- Pointwise-related lists have equal images under a function that respects
the relation on members of the first list. -/
theorem map_eq_of_forall₂ {α β : Type} {R : α → α → Prop} {f : α → β} :
    ∀ {l₁ l₂ : List α}, List.Forall₂ R l₁ l₂ →
      (∀ a ∈ l₁, ∀ b, R a b → f a = f b) → l₁.map f = l₂.map f := by
  intro l₁
  induction l₁ with
  | nil =>
    intro l₂ h _
    cases h
    rfl
  | cons a t ih =>
    intro l₂ h hf
    cases h with
    | cons hab ht =>
      simp only [List.map_cons]
      rw [hf a (List.mem_cons_self a t) _ hab,
        ih ht fun x hx y hy => hf x (List.mem_cons_of_mem a hx) y hy]

/-- Python tuple comparison is transitive. -/
theorem pairLe_trans {p q s : String × Nat} (h₁ : pairLe p q) (h₂ : pairLe q s) : pairLe p s := by
  rcases h₁ with h₁ | ⟨h₁, h₁'⟩ <;> rcases h₂ with h₂ | ⟨h₂, h₂'⟩
  · exact Or.inl (lt_trans h₁ h₂)
  · exact Or.inl (h₂ ▸ h₁)
  · exact Or.inl (h₁ ▸ h₂)
  · exact Or.inr ⟨h₁.trans h₂, le_trans h₁' h₂'⟩

/-- Python tuple comparison is total. -/
theorem pairLe_total (p q : String × Nat) : pairLe p q ∨ pairLe q p := by
  rcases lt_trichotomy p.1 q.1 with h | h | h
  · exact Or.inl (Or.inl h)
  · rcases le_total p.2 q.2 with h' | h'
    · exact Or.inl (Or.inr ⟨h, h'⟩)
    · exact Or.inr (Or.inr ⟨h.symm, h'⟩)
  · exact Or.inr (Or.inl h)

/-- Python tuple comparison is antisymmetric. -/
theorem pairLe_antisymm {p q : String × Nat} (h₁ : pairLe p q) (h₂ : pairLe q p) : p = q := by
  rcases h₁ with h₁ | ⟨h₁, h₁'⟩ <;> rcases h₂ with h₂ | ⟨h₂, h₂'⟩
  · exact absurd (lt_trans h₁ h₂) (lt_irrefl _)
  · exact absurd h₁ (h₂ ▸ lt_irrefl _)
  · exact absurd h₂ (h₁ ▸ lt_irrefl _)
  · exact Prod.ext h₁ (le_antisymm h₁' h₂')

/-- `sortPairs` produces a permutation of its input. -/
theorem sortPairs_perm (l : List (String × Nat)) : (sortPairs l).Perm l :=
  List.perm_insertionSort _ l

/-- `sortPairs` sorts by Python tuple comparison. -/
theorem sortPairs_sorted (l : List (String × Nat)) : (sortPairs l).Pairwise pairLe := by
  haveI : IsTotal (String × Nat) pairLe := ⟨pairLe_total⟩
  haveI : IsTrans (String × Nat) pairLe := ⟨fun _ _ _ => pairLe_trans⟩
  exact List.sorted_insertionSort pairLe l

/-- Permuted pair lists sort to the same list (tuple comparison is a total
order, so no injectivity side condition is needed). -/
theorem sortPairs_eq_of_perm {l₁ l₂ : List (String × Nat)} (hp : l₁.Perm l₂) :
    sortPairs l₁ = sortPairs l₂ := by
  apply eq_of_perm_of_sorted_anti (r := pairLe)
  · exact (sortPairs_perm l₁).trans (hp.trans (sortPairs_perm l₂).symm)
  · exact fun a _ b _ h₁ h₂ => pairLe_antisymm h₁ h₂
  · exact sortPairs_sorted l₁
  · exact sortPairs_sorted l₂

/-- Lookup skips a key-value pair with a different key. -/
theorem lookupKey_cons_ne {k k' : String} {v : Val} {t : List (String × Val)} (h : k' ≠ k) :
    lookupKey k ((k', v) :: t) = lookupKey k t := by
  simp [lookupKey, h]

/-- Lookup finds the first pair with the right key. -/
theorem lookupKey_cons_self {k : String} {v : Val} {t : List (String × Val)} :
    lookupKey k ((k, v) :: t) = some v := by
  simp [lookupKey]

/-- Lookup skips an absent or differently-keyed conditional block. -/
theorem lookupKey_skip {b : Bool} {k k' : String} {v : Val} {rest : List (String × Val)}
    (h : k' ≠ k) :
    lookupKey k ((if b then [] else [(k', v)]) ++ rest) = lookupKey k rest := by
  cases b <;> simp [lookupKey, h]

/-- Lookup resolves at the conditional block carrying its key, provided the
key does not reappear later. -/
theorem lookupKey_here {b : Bool} {k : String} {v : Val} {rest : List (String × Val)}
    (hrest : lookupKey k rest = none) :
    lookupKey k ((if b then [] else [(k, v)]) ++ rest) = if b then none else some v := by
  cases b <;> simp [lookupKey, hrest]

/-- Assigning an absent key appends it. -/
theorem odAssign_of_notMem {l : List (String × Val)} {k : String} (v : Val)
    (h : ∀ p ∈ l, p.1 ≠ k) : odAssign l k v = l ++ [(k, v)] := by
  unfold odAssign
  rw [if_neg]
  simp only [List.any_eq_true, decide_eq_true_eq, not_exists, not_and]
  intro p hp
  exact h p hp

/-- Building an `OrderedDict` from pairs with pairwise-distinct keys keeps the
pair list unchanged. -/
theorem odictFrom_aux {l : List (String × Val)} :
    ∀ acc : List (String × Val), (((acc ++ l).map Prod.fst).Nodup) →
      l.foldl (fun a kv => odAssign a kv.1 kv.2) acc = acc ++ l := by
  induction l with
  | nil => intro acc _; simp
  | cons kv t ih =>
    intro acc h
    rw [List.foldl_cons]
    have hne : ∀ p ∈ acc, p.1 ≠ kv.1 := by
      intro p hp
      have hd := List.disjoint_of_nodup_append (by simpa using h)
      intro hcontr
      exact hd (List.mem_map_of_mem Prod.fst hp) (by simp [hcontr])
    rw [odAssign_of_notMem _ hne]
    have := ih (acc ++ [kv]) (by simpa [List.append_assoc] using h)
    simpa [List.append_assoc] using this

/-- `odictFrom` is the identity on pair lists with pairwise-distinct keys. -/
theorem odictFrom_eq_self {l : List (String × Val)} (h : (l.map Prod.fst).Nodup) :
    odictFrom l = l :=
  odictFrom_aux [] (by simpa using h)

/-- A lookup over entries none of which carry the key returns nothing. -/
theorem lookupKey_eq_none {l : List (String × Val)} {k : String} (h : ∀ p ∈ l, p.1 ≠ k) :
    lookupKey k l = none := by
  induction l with
  | nil => rfl
  | cons p t ih =>
    rw [lookupKey_cons_ne (h p (List.mem_cons_self p t)),
      ih fun q hq => h q (List.mem_cons_of_mem p hq)]

/-- A lookup over prefix entries none of which carry the key, followed by the
key itself, finds the key. -/
theorem lookupKey_append_self {l : List (String × Val)} {k : String} {v : Val}
    (h : ∀ p ∈ l, p.1 ≠ k) : lookupKey k (l ++ [(k, v)]) = some v := by
  induction l with
  | nil => simp [lookupKey]
  | cons p t ih =>
    rw [List.cons_append, lookupKey_cons_ne (h p (List.mem_cons_self p t)),
      ih fun q hq => h q (List.mem_cons_of_mem p hq)]

/-- A differently-keyed conditional block at the end of a dict contributes
nothing to the lookup. -/
theorem lookupKey_block_ne {b : Bool} {k k' : String} {v : Val} (h : k' ≠ k) :
    lookupKey k (if b then [] else [(k', v)]) = none := by
  cases b <;> simp [lookupKey, h]

/-- The lookup resolves at a final conditional block carrying its key. -/
theorem lookupKey_block_self {b : Bool} {k : String} {v : Val} :
    lookupKey k (if b then [] else [(k, v)]) = if b then none else some v := by
  cases b <;> simp [lookupKey]

/-- A member of a conditional singleton block carries the block's key. -/
theorem fst_of_mem_ifblock {b : Bool} {k : String} {v : Val} {p : String × Val}
    (h : p ∈ (if b then ([] : List (String × Val)) else [(k, v)])) : p.1 = k := by
  cases b <;> simp_all

/-- `serialize_class` lookup: `superclass` (always present, sorted). -/
theorem class_lookup_superclass (cls : ClassInfo) :
    (serialize_class cls).lookup "superclass" =
      some (.list ((sortOn id cls.superclass).map .str)) := by
  simp only [serialize_class, Val.lookup, List.append_assoc, List.cons_append, List.nil_append]
  rw [lookupKey_cons_ne (by decide), lookupKey_cons_ne (by decide), lookupKey_cons_self]

/-- `serialize_class` lookup: the `counts` block. -/
theorem class_lookup_counts (cls : ClassInfo) :
    (serialize_class cls).lookup "counts" =
      some (.dict [
        ("constructors", .nat cls.constructors.length),
        ("methods", .nat cls.methods.length),
        ("static_methods", .nat cls.static_methods.length),
        ("operators", .nat cls.operators.length),
        ("fields", .nat cls.fields.length),
        ("enums", .nat cls.enums.length)]) := by
  simp only [serialize_class, Val.lookup, List.append_assoc, List.cons_append, List.nil_append]
  rw [lookupKey_cons_ne (by decide), lookupKey_cons_ne (by decide), lookupKey_cons_ne (by decide),
    lookupKey_cons_self]

/-- `serialize_class` lookup: `fields` is emitted iff non-empty. -/
theorem class_lookup_fields (cls : ClassInfo) :
    (serialize_class cls).lookup "fields" =
      if cls.fields.isEmpty then none
      else some (.list ((sortOn FieldInfo.name cls.fields).map serialize_field)) := by
  simp only [serialize_class, Val.lookup, List.append_assoc, List.cons_append, List.nil_append]
  rw [lookupKey_cons_ne (by decide), lookupKey_cons_ne (by decide), lookupKey_cons_ne (by decide),
    lookupKey_cons_ne (by decide), lookupKey_here]
  rw [lookupKey_skip (by decide), lookupKey_skip (by decide), lookupKey_skip (by decide),
    lookupKey_skip (by decide), lookupKey_block_ne (by decide)]

/-- `serialize_class` lookup: `enums` is emitted iff non-empty. -/
theorem class_lookup_enums (cls : ClassInfo) :
    (serialize_class cls).lookup "enums" =
      if cls.enums.isEmpty then none
      else some (.list ((sortOn EnumInfo.name cls.enums).map serialize_enum)) := by
  simp only [serialize_class, Val.lookup, List.append_assoc, List.cons_append, List.nil_append]
  rw [lookupKey_cons_ne (by decide), lookupKey_cons_ne (by decide), lookupKey_cons_ne (by decide),
    lookupKey_cons_ne (by decide), lookupKey_skip (by decide), lookupKey_here]
  rw [lookupKey_skip (by decide), lookupKey_skip (by decide), lookupKey_skip (by decide),
    lookupKey_block_ne (by decide)]

/-- `serialize_class` lookup: `constructor_signatures` is emitted iff
non-empty. -/
theorem class_lookup_ctor_sigs (cls : ClassInfo) :
    (serialize_class cls).lookup "constructor_signatures" =
      if cls.constructors.isEmpty then none
      else some (.list ((sortOn pySigStr (cls.constructors.map constructor_signature)).map
        renderCtorSig)) := by
  simp only [serialize_class, Val.lookup, List.append_assoc, List.cons_append, List.nil_append]
  rw [lookupKey_cons_ne (by decide), lookupKey_cons_ne (by decide), lookupKey_cons_ne (by decide),
    lookupKey_cons_ne (by decide), lookupKey_skip (by decide), lookupKey_skip (by decide),
    lookupKey_here]
  rw [lookupKey_skip (by decide), lookupKey_skip (by decide), lookupKey_block_ne (by decide)]

/-- `serialize_class` lookup: `method_names` is emitted iff non-empty. -/
theorem class_lookup_method_names (cls : ClassInfo) :
    (serialize_class cls).lookup "method_names" =
      if cls.methods.isEmpty then none
      else some (.list ((sortOn id (cls.methods.map MethodInfo.name)).map .str)) := by
  simp only [serialize_class, Val.lookup, List.append_assoc, List.cons_append, List.nil_append]
  rw [lookupKey_cons_ne (by decide), lookupKey_cons_ne (by decide), lookupKey_cons_ne (by decide),
    lookupKey_cons_ne (by decide), lookupKey_skip (by decide), lookupKey_skip (by decide),
    lookupKey_skip (by decide), lookupKey_here]
  rw [lookupKey_skip (by decide), lookupKey_block_ne (by decide)]

/-- `serialize_class` lookup: `static_method_names` is emitted iff non-empty. -/
theorem class_lookup_static_method_names (cls : ClassInfo) :
    (serialize_class cls).lookup "static_method_names" =
      if cls.static_methods.isEmpty then none
      else some (.list ((sortOn id (cls.static_methods.map MethodInfo.name)).map .str)) := by
  simp only [serialize_class, Val.lookup, List.append_assoc, List.cons_append, List.nil_append]
  rw [lookupKey_cons_ne (by decide), lookupKey_cons_ne (by decide), lookupKey_cons_ne (by decide),
    lookupKey_cons_ne (by decide), lookupKey_skip (by decide), lookupKey_skip (by decide),
    lookupKey_skip (by decide), lookupKey_skip (by decide), lookupKey_here]
  rw [lookupKey_block_ne (by decide)]

/-- `serialize_class` lookup: `operator_names` is emitted iff non-empty. -/
theorem class_lookup_operator_names (cls : ClassInfo) :
    (serialize_class cls).lookup "operator_names" =
      if cls.operators.isEmpty then none
      else some (.list ((sortOn id (cls.operators.map MethodInfo.name)).map .str)) := by
  simp only [serialize_class, Val.lookup, List.append_assoc, List.cons_append, List.nil_append]
  rw [lookupKey_cons_ne (by decide), lookupKey_cons_ne (by decide), lookupKey_cons_ne (by decide),
    lookupKey_cons_ne (by decide), lookupKey_skip (by decide), lookupKey_skip (by decide),
    lookupKey_skip (by decide), lookupKey_skip (by decide), lookupKey_skip (by decide),
    lookupKey_block_self]

/-- `serialize_module` lookup: the `counts` block. -/
theorem module_lookup_counts (module : ModuleInfo) :
    (serialize_module module).lookup "counts" =
      some (.dict [
        ("headers", .nat module.headers.length),
        ("classes", .nat module.classes.length),
        ("class_templates", .nat module.class_templates.length),
        ("typedefs", .nat module.typedefs.length),
        ("enums", .nat module.enums.length),
        ("functions", .nat module.functions.length),
        ("operators", .nat module.operators.length)]) := by
  simp only [serialize_module, Val.lookup, List.append_assoc, List.cons_append, List.nil_append]
  rw [lookupKey_cons_ne (by decide), lookupKey_cons_ne (by decide), lookupKey_cons_ne (by decide),
    lookupKey_cons_self]

/-- `serialize_module` lookup: `classes` is emitted iff non-empty, as a
name-keyed mapping over the classes in sorted-name order. -/
theorem module_lookup_classes (module : ModuleInfo) :
    (serialize_module module).lookup "classes" =
      if module.classes.isEmpty then none
      else some (.dict (odictFrom ((sortOn ClassInfo.name module.classes).map
        fun cls => (cls.name, serialize_class cls)))) := by
  simp only [serialize_module, Val.lookup, List.append_assoc, List.cons_append, List.nil_append]
  rw [lookupKey_cons_ne (by decide), lookupKey_cons_ne (by decide), lookupKey_cons_ne (by decide),
    lookupKey_cons_ne (by decide), lookupKey_here]
  rw [lookupKey_skip (by decide), lookupKey_skip (by decide), lookupKey_skip (by decide),
    lookupKey_skip (by decide), lookupKey_block_ne (by decide)]

/-- `serialize_module` lookup: `class_templates` is emitted iff non-empty. -/
theorem module_lookup_class_templates (module : ModuleInfo) :
    (serialize_module module).lookup "class_templates" =
      if module.class_templates.isEmpty then none
      else some (.dict (odictFrom ((sortOn (fun t => t.name) module.class_templates).map
        fun tmpl => (tmpl.name, serialize_class_template tmpl)))) := by
  simp only [serialize_module, Val.lookup, List.append_assoc, List.cons_append, List.nil_append]
  rw [lookupKey_cons_ne (by decide), lookupKey_cons_ne (by decide), lookupKey_cons_ne (by decide),
    lookupKey_cons_ne (by decide), lookupKey_skip (by decide), lookupKey_here]
  rw [lookupKey_skip (by decide), lookupKey_skip (by decide), lookupKey_skip (by decide),
    lookupKey_block_ne (by decide)]

/-- `serialize_module` lookup: `typedefs` is emitted iff non-empty. -/
theorem module_lookup_typedefs (module : ModuleInfo) :
    (serialize_module module).lookup "typedefs" =
      if module.typedefs.isEmpty then none
      else some (.list ((sortOn TypedefInfo.name module.typedefs).map serialize_typedef)) := by
  simp only [serialize_module, Val.lookup, List.append_assoc, List.cons_append, List.nil_append]
  rw [lookupKey_cons_ne (by decide), lookupKey_cons_ne (by decide), lookupKey_cons_ne (by decide),
    lookupKey_cons_ne (by decide), lookupKey_skip (by decide), lookupKey_skip (by decide),
    lookupKey_here]
  rw [lookupKey_skip (by decide), lookupKey_skip (by decide), lookupKey_block_ne (by decide)]

/-- `serialize_module` lookup: `enums` is emitted iff non-empty. -/
theorem module_lookup_enums (module : ModuleInfo) :
    (serialize_module module).lookup "enums" =
      if module.enums.isEmpty then none
      else some (.list ((sortOn EnumInfo.name module.enums).map serialize_enum)) := by
  simp only [serialize_module, Val.lookup, List.append_assoc, List.cons_append, List.nil_append]
  rw [lookupKey_cons_ne (by decide), lookupKey_cons_ne (by decide), lookupKey_cons_ne (by decide),
    lookupKey_cons_ne (by decide), lookupKey_skip (by decide), lookupKey_skip (by decide),
    lookupKey_skip (by decide), lookupKey_here]
  rw [lookupKey_skip (by decide), lookupKey_block_ne (by decide)]

/-- `serialize_module` lookup: `function_names` is emitted iff non-empty. -/
theorem module_lookup_function_names (module : ModuleInfo) :
    (serialize_module module).lookup "function_names" =
      if module.functions.isEmpty then none
      else some (.list ((sortPairs (module.functions.map fun f => (f.name, f.args.length))).map
        renderNameCount)) := by
  simp only [serialize_module, Val.lookup, List.append_assoc, List.cons_append, List.nil_append]
  rw [lookupKey_cons_ne (by decide), lookupKey_cons_ne (by decide), lookupKey_cons_ne (by decide),
    lookupKey_cons_ne (by decide), lookupKey_skip (by decide), lookupKey_skip (by decide),
    lookupKey_skip (by decide), lookupKey_skip (by decide), lookupKey_here]
  rw [lookupKey_block_ne (by decide)]

/-- `serialize_module` lookup: `operator_names` is emitted iff non-empty. -/
theorem module_lookup_operator_names (module : ModuleInfo) :
    (serialize_module module).lookup "operator_names" =
      if module.operators.isEmpty then none
      else some (.list ((sortPairs (module.operators.map fun f => (f.name, f.args.length))).map
        renderNameCount)) := by
  simp only [serialize_module, Val.lookup, List.append_assoc, List.cons_append, List.nil_append]
  rw [lookupKey_cons_ne (by decide), lookupKey_cons_ne (by decide), lookupKey_cons_ne (by decide),
    lookupKey_cons_ne (by decide), lookupKey_skip (by decide), lookupKey_skip (by decide),
    lookupKey_skip (by decide), lookupKey_skip (by decide), lookupKey_skip (by decide),
    lookupKey_block_self]

/-- `serialize_class` emits no `type_params` key. -/
theorem class_lookup_type_params_none (cls : ClassInfo) :
    (serialize_class cls).lookup "type_params" = none := by
  simp only [serialize_class, Val.lookup, List.append_assoc, List.cons_append, List.nil_append]
  rw [lookupKey_cons_ne (by decide), lookupKey_cons_ne (by decide), lookupKey_cons_ne (by decide),
    lookupKey_cons_ne (by decide), lookupKey_skip (by decide), lookupKey_skip (by decide),
    lookupKey_skip (by decide), lookupKey_skip (by decide), lookupKey_skip (by decide),
    lookupKey_block_ne (by decide)]

/-- A failed lookup means no entry carries the key. -/
theorem keys_ne_of_lookupKey_eq_none {k : String} :
    ∀ {l : List (String × Val)}, lookupKey k l = none → ∀ p ∈ l, p.1 ≠ k := by
  intro l
  induction l with
  | nil => intro _ p hp; cases hp
  | cons q t ih =>
    obtain ⟨k', v⟩ := q
    intro h p hp
    by_cases hk : k' = k
    · rw [hk, lookupKey_cons_self] at h; cases h
    · rw [lookupKey_cons_ne hk] at h
      rcases List.mem_cons.mp hp with rfl | hp'
      · exact hk
      · exact ih h p hp'

/-- `serialize_class_template` lookup: `type_params` is always present and
keeps declaration order. -/
theorem template_lookup_type_params (t : ClassTemplateInfo) :
    (serialize_class_template t).lookup "type_params" =
      some (.list (t.type_params.map renderTypeParam)) := by
  have hnone := class_lookup_type_params_none t.toClassInfo
  unfold serialize_class_template
  simp only [serialize_class, Val.lookup] at hnone ⊢
  rw [odAssign_of_notMem _ (keys_ne_of_lookupKey_eq_none hnone)]
  exact lookupKey_append_self (keys_ne_of_lookupKey_eq_none hnone)

/-- Lists of equal length are equally empty. -/
theorem isEmpty_eq_of_length_eq {α β : Type} {l₁ : List α} {l₂ : List β}
    (h : l₁.length = l₂.length) : l₁.isEmpty = l₂.isEmpty := by
  cases l₁ <;> cases l₂ <;> simp_all

/-- Two classes describing the same entities, with the field and enum
collections possibly in different insertion orders. -/
structure ClassPermEquiv (c₁ c₂ : ClassInfo) : Prop where
  name_eq : c₁.name = c₂.name
  abstract_eq : c₁.abstract = c₂.abstract
  superclass_eq : c₁.superclass = c₂.superclass
  constructors_eq : c₁.constructors = c₂.constructors
  methods_eq : c₁.methods = c₂.methods
  static_methods_eq : c₁.static_methods = c₂.static_methods
  operators_eq : c₁.operators = c₂.operators
  fields_perm : c₁.fields.Perm c₂.fields
  enums_perm : c₁.enums.Perm c₂.enums

/-- Name-uniqueness invariant inside one class (spec §3: every named entity's
name is unique within its immediate parent collection). -/
structure ClassNodup (c : ClassInfo) : Prop where
  fields_nodup : (c.fields.map FieldInfo.name).Nodup
  enums_nodup : (c.enums.map EnumInfo.name).Nodup

/-- Two modules describing the same entities, with the class and enum
collections possibly in different insertion orders (classes matched up to
`ClassPermEquiv`). -/
structure ModulePermEquiv (m₁ m₂ : ModuleInfo) : Prop where
  name_eq : m₁.name = m₂.name
  dependencies_eq : m₁.dependencies_headers = m₂.dependencies_headers
  namespaces_eq : m₁.namespaces = m₂.namespaces
  headers_eq : m₁.headers = m₂.headers
  class_templates_eq : m₁.class_templates = m₂.class_templates
  typedefs_eq : m₁.typedefs = m₂.typedefs
  functions_eq : m₁.functions = m₂.functions
  operators_eq : m₁.operators = m₂.operators
  classes_rel : ∃ cs, List.Forall₂ ClassPermEquiv m₁.classes cs ∧ cs.Perm m₂.classes
  enums_perm : m₁.enums.Perm m₂.enums

/-- Name-uniqueness invariant inside one module. -/
structure ModuleNodup (m : ModuleInfo) : Prop where
  classes_nodup : (m.classes.map ClassInfo.name).Nodup
  enums_nodup : (m.enums.map EnumInfo.name).Nodup
  classes_inner : ∀ c ∈ m.classes, ClassNodup c

/-- Two snapshots describing the same entities, with the module, class, enum
and field collections possibly in different insertion orders. -/
def SnapPermEquiv (ms₁ ms₂ : List ModuleInfo) : Prop :=
  ∃ ms, List.Forall₂ ModulePermEquiv ms₁ ms ∧ ms.Perm ms₂

/-- Name-uniqueness invariant over a snapshot. -/
structure SnapNodup (ms : List ModuleInfo) : Prop where
  names_nodup : (ms.map ModuleInfo.name).Nodup
  modules_inner : ∀ m ∈ ms, ModuleNodup m

/-- Canonicalization of a class does not depend on the insertion order of its
field and enum collections (given unique names). -/
theorem serialize_class_congr {c₁ c₂ : ClassInfo} (h : ClassPermEquiv c₁ c₂)
    (hn : ClassNodup c₁) : serialize_class c₁ = serialize_class c₂ := by
  have hSortF : sortOn FieldInfo.name c₁.fields = sortOn FieldInfo.name c₂.fields :=
    sortOn_eq_of_perm _ h.fields_perm
      fun a ha b hb hk => List.inj_on_of_nodup_map hn.fields_nodup ha hb hk
  have hSortE : sortOn EnumInfo.name c₁.enums = sortOn EnumInfo.name c₂.enums :=
    sortOn_eq_of_perm _ h.enums_perm
      fun a ha b hb hk => List.inj_on_of_nodup_map hn.enums_nodup ha hb hk
  unfold serialize_class
  rw [h.name_eq, h.abstract_eq, h.superclass_eq, h.constructors_eq, h.methods_eq,
    h.static_methods_eq, h.operators_eq, h.fields_perm.length_eq, h.enums_perm.length_eq,
    isEmpty_eq_of_perm h.fields_perm, isEmpty_eq_of_perm h.enums_perm, hSortF, hSortE]

/-- The classes mapping of a module is invariant under reordering of the
class collection (given unique class names and inner uniqueness). -/
theorem classes_block_eq {cs₁ cs₂ : List ClassInfo}
    (hrel : ∃ cs, List.Forall₂ ClassPermEquiv cs₁ cs ∧ cs.Perm cs₂)
    (hnodup : (cs₁.map ClassInfo.name).Nodup)
    (hinner : ∀ c ∈ cs₁, ClassNodup c) :
    (sortOn ClassInfo.name cs₁).map (fun c => (c.name, serialize_class c)) =
      (sortOn ClassInfo.name cs₂).map (fun c => (c.name, serialize_class c)) := by
  obtain ⟨cs, hfa, hperm⟩ := hrel
  have h2 : cs₁.map (fun c => (c.name, serialize_class c)) =
      cs.map (fun c => (c.name, serialize_class c)) := by
    refine map_eq_of_forall₂ hfa ?_
    intro a ha b hab
    exact Prod.ext hab.name_eq (serialize_class_congr hab (hinner a ha))
  have hpm : (cs₁.map fun c => (c.name, serialize_class c)).Perm
      (cs₂.map fun c => (c.name, serialize_class c)) := by
    rw [h2]; exact hperm.map _
  have hinj : ∀ x ∈ cs₁.map (fun c => (c.name, serialize_class c)),
      ∀ y ∈ cs₁.map (fun c => (c.name, serialize_class c)), x.1 = y.1 → x = y := by
    intro x hx y hy hxy
    obtain ⟨a, ha, rfl⟩ := List.mem_map.mp hx
    obtain ⟨b, hb, rfl⟩ := List.mem_map.mp hy
    have : a = b := List.inj_on_of_nodup_map hnodup ha hb hxy
    rw [this]
  calc (sortOn ClassInfo.name cs₁).map (fun c => (c.name, serialize_class c))
      = sortOn Prod.fst (cs₁.map fun c => (c.name, serialize_class c)) :=
        map_sortOn (fun c => (c.name, serialize_class c)) ClassInfo.name Prod.fst
          (fun _ => rfl) cs₁
    _ = sortOn Prod.fst (cs₂.map fun c => (c.name, serialize_class c)) :=
        sortOn_eq_of_perm _ hpm hinj
    _ = (sortOn ClassInfo.name cs₂).map (fun c => (c.name, serialize_class c)) :=
        (map_sortOn (fun c => (c.name, serialize_class c)) ClassInfo.name Prod.fst
          (fun _ => rfl) cs₂).symm

/-- Canonicalization of a module does not depend on the insertion order of
its class and enum collections (given unique names). -/
theorem serialize_module_congr {m₁ m₂ : ModuleInfo} (h : ModulePermEquiv m₁ m₂)
    (hn : ModuleNodup m₁) : serialize_module m₁ = serialize_module m₂ := by
  have hSortE : sortOn EnumInfo.name m₁.enums = sortOn EnumInfo.name m₂.enums :=
    sortOn_eq_of_perm _ h.enums_perm
      fun a ha b hb hk => List.inj_on_of_nodup_map hn.enums_nodup ha hb hk
  have hCls := classes_block_eq h.classes_rel hn.classes_nodup hn.classes_inner
  have hClsLen : m₁.classes.length = m₂.classes.length := by
    obtain ⟨cs, hfa, hperm⟩ := h.classes_rel
    exact hfa.length_eq.trans hperm.length_eq
  unfold serialize_module
  rw [h.name_eq, h.dependencies_eq, h.namespaces_eq, h.headers_eq, h.class_templates_eq,
    h.typedefs_eq, h.functions_eq, h.operators_eq, h.enums_perm.length_eq, hClsLen,
    isEmpty_eq_of_length_eq hClsLen, isEmpty_eq_of_perm h.enums_perm, hSortE, hCls]

/-- `ClassPermEquiv` is reflexive. -/
theorem ClassPermEquiv.refl (c : ClassInfo) : ClassPermEquiv c c :=
  ⟨rfl, rfl, rfl, rfl, rfl, rfl, rfl, List.Perm.refl _, List.Perm.refl _⟩

/-- C1: given two snapshots whose Module/Class/Enum/Field collections contain
the same entities in different insertion orders (names unique within each
parent collection), the canonicalized output produced by `serialize_module`
over all modules is identical. -/
theorem serialized_modules_order_independent (ms₁ ms₂ : List ModuleInfo)
    (h : SnapPermEquiv ms₁ ms₂) (hn : SnapNodup ms₁) :
    serialized_modules ms₁ = serialized_modules ms₂ := by
  obtain ⟨ms, hfa, hperm⟩ := h
  have h2 : ms₁.map (fun m => (m.name, serialize_module m)) =
      ms.map (fun m => (m.name, serialize_module m)) :=
    map_eq_of_forall₂ hfa fun a ha b hab =>
      Prod.ext hab.name_eq (serialize_module_congr hab (hn.modules_inner a ha))
  have hpm : (ms₁.map fun m => (m.name, serialize_module m)).Perm
      (ms₂.map fun m => (m.name, serialize_module m)) := by
    rw [h2]; exact hperm.map _
  have hinj : ∀ x ∈ ms₁.map (fun m => (m.name, serialize_module m)),
      ∀ y ∈ ms₁.map (fun m => (m.name, serialize_module m)), x.1 = y.1 → x = y := by
    intro x hx y hy hxy
    obtain ⟨a, ha, rfl⟩ := List.mem_map.mp hx
    obtain ⟨b, hb, rfl⟩ := List.mem_map.mp hy
    have : a = b := List.inj_on_of_nodup_map hn.names_nodup ha hb hxy
    rw [this]
  unfold serialized_modules
  have hblock : (sortOn ModuleInfo.name ms₁).map (fun m => (m.name, serialize_module m)) =
      (sortOn ModuleInfo.name ms₂).map (fun m => (m.name, serialize_module m)) :=
    calc (sortOn ModuleInfo.name ms₁).map (fun m => (m.name, serialize_module m))
        = sortOn Prod.fst (ms₁.map fun m => (m.name, serialize_module m)) :=
          map_sortOn (fun m => (m.name, serialize_module m)) ModuleInfo.name Prod.fst
            (fun _ => rfl) ms₁
      _ = sortOn Prod.fst (ms₂.map fun m => (m.name, serialize_module m)) :=
          sortOn_eq_of_perm _ hpm hinj
      _ = (sortOn ModuleInfo.name ms₂).map (fun m => (m.name, serialize_module m)) :=
          (map_sortOn (fun m => (m.name, serialize_module m)) ModuleInfo.name Prod.fst
            (fun _ => rfl) ms₂).symm
  rw [hblock]

/-- A sample class, used to exercise the theorems on concrete input. -/
def sampleClassC : ClassInfo :=
  ⟨"C", false, [], [], [], [], [], [], []⟩

/-- A second sample class with a different name. -/
def sampleClassD : ClassInfo :=
  ⟨"D", true, [], [], [], [], [], [], []⟩

/-- A sample module holding the two sample classes in one order. -/
def sampleModuleA1 : ModuleInfo :=
  ⟨"A", [], [], [], [sampleClassC, sampleClassD], [], [], [], [], []⟩

/-- The same sample module with its class collection in the other order. -/
def sampleModuleA2 : ModuleInfo :=
  ⟨"A", [], [], [], [sampleClassD, sampleClassC], [], [], [], [], []⟩

/-- Witness for C1 at a concrete pair of snapshots. -/
theorem serialized_modules_order_independent_witness :
    SnapPermEquiv [sampleModuleA1] [sampleModuleA2] ∧ SnapNodup [sampleModuleA1] ∧
      serialized_modules [sampleModuleA1] = serialized_modules [sampleModuleA2] := by
  have hmpe : ModulePermEquiv sampleModuleA1 sampleModuleA2 :=
    { name_eq := rfl, dependencies_eq := rfl, namespaces_eq := rfl, headers_eq := rfl
      class_templates_eq := rfl, typedefs_eq := rfl, functions_eq := rfl, operators_eq := rfl
      classes_rel := ⟨[sampleClassC, sampleClassD],
        List.Forall₂.cons (ClassPermEquiv.refl _)
          (List.Forall₂.cons (ClassPermEquiv.refl _) List.Forall₂.nil),
        List.Perm.swap sampleClassD sampleClassC []⟩
      enums_perm := List.Perm.refl _ }
  have hequiv : SnapPermEquiv [sampleModuleA1] [sampleModuleA2] :=
    ⟨[sampleModuleA2], List.Forall₂.cons hmpe List.Forall₂.nil, List.Perm.refl _⟩
  have hnodup : SnapNodup [sampleModuleA1] := by
    refine ⟨by decide, ?_⟩
    intro m hm
    rw [List.mem_singleton] at hm
    subst hm
    refine ⟨by decide, by decide, ?_⟩
    intro c hc
    rcases List.mem_cons.mp hc with rfl | hc'
    · exact ⟨by decide, by decide⟩
    · rw [List.mem_singleton] at hc'
      subst hc'
      exact ⟨by decide, by decide⟩
  exact ⟨hequiv, hnodup,
    serialized_modules_order_independent [sampleModuleA1] [sampleModuleA2] hequiv hnodup⟩

/-- A conditionally emitted entry is absent exactly when its collection is
empty. -/
theorem ifblock_none_iff {α β : Type} {v : β} {l : List α} :
    (if l.isEmpty then (none : Option β) else some v) = none ↔ l = [] := by
  cases hl : l.isEmpty <;> simp_all

/-- C2: empty collections at any level emit no key for that collection
(absence, not an empty marker); a class with zero fields has no `fields` key,
and one with a single field emits a `fields` list of length 1. -/
theorem empty_collection_omission (cls : ClassInfo) (module : ModuleInfo) :
    ((serialize_class cls).lookup "fields" = none ↔ cls.fields = []) ∧
    (cls.fields.length = 1 → ∃ v, (serialize_class cls).lookup "fields" = some (.list [v])) ∧
    ((serialize_class cls).lookup "enums" = none ↔ cls.enums = []) ∧
    ((serialize_class cls).lookup "constructor_signatures" = none ↔ cls.constructors = []) ∧
    ((serialize_class cls).lookup "method_names" = none ↔ cls.methods = []) ∧
    ((serialize_class cls).lookup "static_method_names" = none ↔ cls.static_methods = []) ∧
    ((serialize_class cls).lookup "operator_names" = none ↔ cls.operators = []) ∧
    ((serialize_module module).lookup "classes" = none ↔ module.classes = []) ∧
    ((serialize_module module).lookup "class_templates" = none ↔ module.class_templates = []) ∧
    ((serialize_module module).lookup "typedefs" = none ↔ module.typedefs = []) ∧
    ((serialize_module module).lookup "enums" = none ↔ module.enums = []) ∧
    ((serialize_module module).lookup "function_names" = none ↔ module.functions = []) ∧
    ((serialize_module module).lookup "operator_names" = none ↔ module.operators = []) := by
  refine ⟨?_, ?_, ?_, ?_, ?_, ?_, ?_, ?_, ?_, ?_, ?_, ?_, ?_⟩
  · rw [class_lookup_fields]; exact ifblock_none_iff
  · intro h1
    have hne : cls.fields ≠ [] := by intro h; rw [h] at h1; cases h1
    rw [class_lookup_fields, List.isEmpty_eq_false.mpr hne]
    obtain ⟨a, ha⟩ := List.length_eq_one.mp ((sortOn_length FieldInfo.name cls.fields).trans h1)
    exact ⟨serialize_field a, by rw [ha]; rfl⟩
  · rw [class_lookup_enums]; exact ifblock_none_iff
  · rw [class_lookup_ctor_sigs]; exact ifblock_none_iff
  · rw [class_lookup_method_names]; exact ifblock_none_iff
  · rw [class_lookup_static_method_names]; exact ifblock_none_iff
  · rw [class_lookup_operator_names]; exact ifblock_none_iff
  · rw [module_lookup_classes]; exact ifblock_none_iff
  · rw [module_lookup_class_templates]; exact ifblock_none_iff
  · rw [module_lookup_typedefs]; exact ifblock_none_iff
  · rw [module_lookup_enums]; exact ifblock_none_iff
  · rw [module_lookup_function_names]; exact ifblock_none_iff
  · rw [module_lookup_operator_names]; exact ifblock_none_iff

/-- A sample field. -/
def sampleFieldX : FieldInfo := ⟨"x", "int", false, true⟩

/-- A sample class with exactly one field. -/
def sampleClassOneField : ClassInfo :=
  ⟨"W", false, [], [], [], [], [], [sampleFieldX], []⟩

/-- Witness for C2 at a concrete one-field class. -/
theorem empty_collection_omission_witness :
    ((serialize_class sampleClassOneField).lookup "fields" = none ↔
      sampleClassOneField.fields = []) ∧
    (∃ v, (serialize_class sampleClassOneField).lookup "fields" = some (.list [v])) := by
  have h := empty_collection_omission sampleClassOneField sampleModuleA1
  exact ⟨h.1, h.2.1 (by decide)⟩

/-- `serialize_module` emits no `headers` detail key (headers are counted
only). -/
theorem module_lookup_headers_none (module : ModuleInfo) :
    (serialize_module module).lookup "headers" = none := by
  simp only [serialize_module, Val.lookup, List.append_assoc, List.cons_append, List.nil_append]
  rw [lookupKey_cons_ne (by decide), lookupKey_cons_ne (by decide), lookupKey_cons_ne (by decide),
    lookupKey_cons_ne (by decide), lookupKey_skip (by decide), lookupKey_skip (by decide),
    lookupKey_skip (by decide), lookupKey_skip (by decide), lookupKey_skip (by decide),
    lookupKey_block_ne (by decide)]

/-- The keys of the serialized classes mapping are the sorted class names,
with no duplicates, when class names are unique. -/
theorem classes_map_keys_nodup {module : ModuleInfo}
    (hc : (module.classes.map ClassInfo.name).Nodup) :
    ((((sortOn ClassInfo.name module.classes).map
      fun cls => (cls.name, serialize_class cls)).map Prod.fst)).Nodup := by
  have heq : (((sortOn ClassInfo.name module.classes).map
      fun cls => (cls.name, serialize_class cls)).map Prod.fst) =
      (sortOn ClassInfo.name module.classes).map ClassInfo.name := by
    simp only [List.map_map]; rfl
  rw [heq]
  exact (((sortOn_perm ClassInfo.name module.classes).map ClassInfo.name).nodup_iff).mpr hc

/-- Likewise for the class-templates mapping. -/
theorem templates_map_keys_nodup {module : ModuleInfo}
    (ht : (module.class_templates.map fun t => t.name).Nodup) :
    ((((sortOn (fun t => t.name) module.class_templates).map
      fun tmpl => (tmpl.name, serialize_class_template tmpl)).map Prod.fst)).Nodup := by
  have heq : (((sortOn (fun t => t.name) module.class_templates).map
      fun tmpl => (tmpl.name, serialize_class_template tmpl)).map Prod.fst) =
      (sortOn (fun t => t.name) module.class_templates).map fun t => t.name := by
    simp only [List.map_map]; rfl
  rw [heq]
  exact (((sortOn_perm (fun t => t.name) module.class_templates).map _).nodup_iff).mpr ht

/-- C3: every count in the `counts` block equals the length of the
corresponding source collection, and hence the length of the detail
list/map whenever that detail is present. -/
theorem count_detail_consistency (module : ModuleInfo) (cls : ClassInfo)
    (hc : (module.classes.map ClassInfo.name).Nodup)
    (ht : (module.class_templates.map fun t => t.name).Nodup) :
    ((serialize_module module).lookup "counts" = some (.dict [
        ("headers", .nat module.headers.length),
        ("classes", .nat module.classes.length),
        ("class_templates", .nat module.class_templates.length),
        ("typedefs", .nat module.typedefs.length),
        ("enums", .nat module.enums.length),
        ("functions", .nat module.functions.length),
        ("operators", .nat module.operators.length)])) ∧
    ((serialize_module module).lookup "headers" = none) ∧
    (∀ d, (serialize_module module).lookup "classes" = some (.dict d) →
      d.length = module.classes.length) ∧
    (∀ d, (serialize_module module).lookup "class_templates" = some (.dict d) →
      d.length = module.class_templates.length) ∧
    (∀ l, (serialize_module module).lookup "typedefs" = some (.list l) →
      l.length = module.typedefs.length) ∧
    (∀ l, (serialize_module module).lookup "enums" = some (.list l) →
      l.length = module.enums.length) ∧
    (∀ l, (serialize_module module).lookup "function_names" = some (.list l) →
      l.length = module.functions.length) ∧
    (∀ l, (serialize_module module).lookup "operator_names" = some (.list l) →
      l.length = module.operators.length) ∧
    ((serialize_class cls).lookup "counts" = some (.dict [
        ("constructors", .nat cls.constructors.length),
        ("methods", .nat cls.methods.length),
        ("static_methods", .nat cls.static_methods.length),
        ("operators", .nat cls.operators.length),
        ("fields", .nat cls.fields.length),
        ("enums", .nat cls.enums.length)])) ∧
    (∀ l, (serialize_class cls).lookup "fields" = some (.list l) →
      l.length = cls.fields.length) ∧
    (∀ l, (serialize_class cls).lookup "enums" = some (.list l) →
      l.length = cls.enums.length) ∧
    (∀ l, (serialize_class cls).lookup "constructor_signatures" = some (.list l) →
      l.length = cls.constructors.length) ∧
    (∀ l, (serialize_class cls).lookup "method_names" = some (.list l) →
      l.length = cls.methods.length) ∧
    (∀ l, (serialize_class cls).lookup "static_method_names" = some (.list l) →
      l.length = cls.static_methods.length) ∧
    (∀ l, (serialize_class cls).lookup "operator_names" = some (.list l) →
      l.length = cls.operators.length) := by
  refine ⟨module_lookup_counts module, module_lookup_headers_none module,
    ?_, ?_, ?_, ?_, ?_, ?_, class_lookup_counts cls, ?_, ?_, ?_, ?_, ?_, ?_⟩
  · intro d hd
    rw [module_lookup_classes] at hd
    cases hcl : module.classes.isEmpty
    · rw [hcl] at hd
      simp only [Bool.false_eq_true, if_false, Option.some.injEq, Val.dict.injEq] at hd
      rw [← hd, odictFrom_eq_self (classes_map_keys_nodup hc), List.length_map, sortOn_length]
    · rw [hcl] at hd; cases hd
  · intro d hd
    rw [module_lookup_class_templates] at hd
    cases hcl : module.class_templates.isEmpty
    · rw [hcl] at hd
      simp only [Bool.false_eq_true, if_false, Option.some.injEq, Val.dict.injEq] at hd
      rw [← hd, odictFrom_eq_self (templates_map_keys_nodup ht), List.length_map, sortOn_length]
    · rw [hcl] at hd; cases hd
  · intro l hl
    rw [module_lookup_typedefs] at hl
    cases hcl : module.typedefs.isEmpty
    · rw [hcl] at hl
      simp only [Bool.false_eq_true, if_false, Option.some.injEq, Val.list.injEq] at hl
      rw [← hl, List.length_map, sortOn_length]
    · rw [hcl] at hl; cases hl
  · intro l hl
    rw [module_lookup_enums] at hl
    cases hcl : module.enums.isEmpty
    · rw [hcl] at hl
      simp only [Bool.false_eq_true, if_false, Option.some.injEq, Val.list.injEq] at hl
      rw [← hl, List.length_map, sortOn_length]
    · rw [hcl] at hl; cases hl
  · intro l hl
    rw [module_lookup_function_names] at hl
    cases hcl : module.functions.isEmpty
    · rw [hcl] at hl
      simp only [Bool.false_eq_true, if_false, Option.some.injEq, Val.list.injEq] at hl
      rw [← hl, List.length_map]
      rw [(sortPairs_perm _).length_eq, List.length_map]
    · rw [hcl] at hl; cases hl
  · intro l hl
    rw [module_lookup_operator_names] at hl
    cases hcl : module.operators.isEmpty
    · rw [hcl] at hl
      simp only [Bool.false_eq_true, if_false, Option.some.injEq, Val.list.injEq] at hl
      rw [← hl, List.length_map]
      rw [(sortPairs_perm _).length_eq, List.length_map]
    · rw [hcl] at hl; cases hl
  · intro l hl
    rw [class_lookup_fields] at hl
    cases hcl : cls.fields.isEmpty
    · rw [hcl] at hl
      simp only [Bool.false_eq_true, if_false, Option.some.injEq, Val.list.injEq] at hl
      rw [← hl, List.length_map, sortOn_length]
    · rw [hcl] at hl; cases hl
  · intro l hl
    rw [class_lookup_enums] at hl
    cases hcl : cls.enums.isEmpty
    · rw [hcl] at hl
      simp only [Bool.false_eq_true, if_false, Option.some.injEq, Val.list.injEq] at hl
      rw [← hl, List.length_map, sortOn_length]
    · rw [hcl] at hl; cases hl
  · intro l hl
    rw [class_lookup_ctor_sigs] at hl
    cases hcl : cls.constructors.isEmpty
    · rw [hcl] at hl
      simp only [Bool.false_eq_true, if_false, Option.some.injEq, Val.list.injEq] at hl
      rw [← hl, List.length_map, sortOn_length, List.length_map]
    · rw [hcl] at hl; cases hl
  · intro l hl
    rw [class_lookup_method_names] at hl
    cases hcl : cls.methods.isEmpty
    · rw [hcl] at hl
      simp only [Bool.false_eq_true, if_false, Option.some.injEq, Val.list.injEq] at hl
      rw [← hl, List.length_map, sortOn_length, List.length_map]
    · rw [hcl] at hl; cases hl
  · intro l hl
    rw [class_lookup_static_method_names] at hl
    cases hcl : cls.static_methods.isEmpty
    · rw [hcl] at hl
      simp only [Bool.false_eq_true, if_false, Option.some.injEq, Val.list.injEq] at hl
      rw [← hl, List.length_map, sortOn_length, List.length_map]
    · rw [hcl] at hl; cases hl
  · intro l hl
    rw [class_lookup_operator_names] at hl
    cases hcl : cls.operators.isEmpty
    · rw [hcl] at hl
      simp only [Bool.false_eq_true, if_false, Option.some.injEq, Val.list.injEq] at hl
      rw [← hl, List.length_map, sortOn_length, List.length_map]
    · rw [hcl] at hl; cases hl

/-- Witness for C3 at a concrete module and class. -/
theorem count_detail_consistency_witness :
    (sampleModuleA1.classes.map ClassInfo.name).Nodup ∧
    ((serialize_class sampleClassOneField).lookup "counts" = some (.dict [
        ("constructors", .nat 0), ("methods", .nat 0), ("static_methods", .nat 0),
        ("operators", .nat 0), ("fields", .nat 1), ("enums", .nat 0)])) := by
  refine ⟨by decide, ?_⟩
  have h := count_detail_consistency sampleModuleA1 sampleClassOneField (by decide) (by decide)
  exact h.2.2.2.2.2.2.2.2.1

/-- C4: `classes` mapping keys appear in strict lexicographic order;
`superclass` lists are sorted; template `type_params` keep declaration
order. -/
theorem sort_correctness (module : ModuleInfo) (cls : ClassInfo) (tmpl : ClassTemplateInfo)
    (hc : (module.classes.map ClassInfo.name).Nodup) :
    (∀ d, (serialize_module module).lookup "classes" = some (.dict d) →
      (d.map Prod.fst).Pairwise (· < ·)) ∧
    (∃ l : List String, (serialize_class cls).lookup "superclass" = some (.list (l.map .str)) ∧
      l.Pairwise (· ≤ ·) ∧ l.Perm cls.superclass) ∧
    ((serialize_class_template tmpl).lookup "type_params" =
      some (.list (tmpl.type_params.map renderTypeParam))) := by
  refine ⟨?_, ?_, template_lookup_type_params tmpl⟩
  · intro d hd
    rw [module_lookup_classes] at hd
    cases hcl : module.classes.isEmpty
    · rw [hcl] at hd
      simp only [Bool.false_eq_true, if_false, Option.some.injEq, Val.dict.injEq] at hd
      rw [← hd, odictFrom_eq_self (classes_map_keys_nodup hc)]
      have heq : (((sortOn ClassInfo.name module.classes).map
          fun c => (c.name, serialize_class c)).map Prod.fst) =
          (sortOn ClassInfo.name module.classes).map ClassInfo.name := by
        simp only [List.map_map]; rfl
      rw [heq]
      have hle : ((sortOn ClassInfo.name module.classes).map ClassInfo.name).Pairwise (· ≤ ·) :=
        List.pairwise_map.mpr (sortOn_sorted ClassInfo.name module.classes)
      have hnd : ((sortOn ClassInfo.name module.classes).map ClassInfo.name).Nodup :=
        (((sortOn_perm ClassInfo.name module.classes).map ClassInfo.name).nodup_iff).mpr hc
      exact (hle.and hnd).imp fun h => lt_of_le_of_ne h.1 h.2
    · rw [hcl] at hd; cases hd
  · refine ⟨sortOn id cls.superclass, class_lookup_superclass cls, ?_, sortOn_perm id cls.superclass⟩
    exact (sortOn_sorted id cls.superclass).imp fun h => h

/-- A sample class template with two type parameters in declaration order. -/
def sampleTemplate : ClassTemplateInfo :=
  ⟨⟨"T", false, ["B", "A"], [], [], [], [], [], []⟩,
   [("typename", "Z", none), ("typename", "A", some "int")]⟩

/-- Witness for C4 at a concrete module, class and template. -/
theorem sort_correctness_witness :
    (sampleModuleA1.classes.map ClassInfo.name).Nodup ∧
    ((serialize_class_template sampleTemplate).lookup "type_params" =
      some (.list (sampleTemplate.type_params.map renderTypeParam))) := by
  refine ⟨by decide, ?_⟩
  exact (sort_correctness sampleModuleA1 sampleClassOneField sampleTemplate (by decide)).2.2

/-- C5: two function (method, constructor) records that differ only in some
argument's default value serialize to the same canonical signature. -/
theorem default_value_exclusion (f₁ f₂ : FunctionInfo) (m₁ m₂ c₁ c₂ : MethodInfo)
    (hfn : f₁.name = f₂.name) (hfr : f₁.return_type = f₂.return_type)
    (hfi : f₁.inline = f₂.inline) (hfns : f₁.nspace = f₂.nspace)
    (hfa : f₁.args.map (fun a => (a.1, a.2.1)) = f₂.args.map (fun a => (a.1, a.2.1)))
    (hmn : m₁.name = m₂.name) (hmr : m₁.return_type = m₂.return_type)
    (hmc : m₁.const = m₂.const) (hmv : m₁.virtual = m₂.virtual)
    (hmp : m₁.pure_virtual = m₂.pure_virtual) (hmi : m₁.inline = m₂.inline)
    (hma : m₁.args.map (fun a => (a.1, a.2.1)) = m₂.args.map (fun a => (a.1, a.2.1)))
    (hca : c₁.args.map (fun a => (a.1, a.2.1)) = c₂.args.map (fun a => (a.1, a.2.1))) :
    serialize_function f₁ = serialize_function f₂ ∧
      serialize_method m₁ = serialize_method m₂ ∧
      constructor_signature c₁ = constructor_signature c₂ := by
  have hfargs : f₁.args.map (fun a => Val.list [.str a.1, .str a.2.1]) =
      f₂.args.map (fun a => Val.list [.str a.1, .str a.2.1]) := by
    have := congrArg (List.map fun p : String × String => Val.list [.str p.1, .str p.2]) hfa
    simpa [List.map_map, Function.comp] using this
  have hmargs : m₁.args.map (fun a => Val.list [.str a.1, .str a.2.1]) =
      m₂.args.map (fun a => Val.list [.str a.1, .str a.2.1]) := by
    have := congrArg (List.map fun p : String × String => Val.list [.str p.1, .str p.2]) hma
    simpa [List.map_map, Function.comp] using this
  have hcargs : c₁.args.map (fun a => a.2.1) = c₂.args.map (fun a => a.2.1) := by
    have := congrArg (List.map fun p : String × String => p.2) hca
    simpa [List.map_map, Function.comp] using this
  refine ⟨?_, ?_, ?_⟩
  · unfold serialize_function
    rw [hfn, hfr, hfi, hfns, hfargs]
  · unfold serialize_method
    rw [hmn, hmr, hmc, hmv, hmp, hmi, hmargs]
  · unfold constructor_signature
    rw [hcargs]

/-- A sample function with a defaulted argument. -/
def sampleFunctionDef : FunctionInfo :=
  ⟨"f", "int", [("x", "int", some "0")], false, "ns"⟩

/-- The same function with the default dropped. -/
def sampleFunctionNoDef : FunctionInfo :=
  ⟨"f", "int", [("x", "int", none)], false, "ns"⟩

/-- A sample method, used both as method and constructor input. -/
def sampleMethodM : MethodInfo :=
  ⟨"m", "void", [("y", "bool", some "true")], true, false, false, false⟩

/-- The same method with a different default. -/
def sampleMethodM2 : MethodInfo :=
  ⟨"m", "void", [("y", "bool", some "false")], true, false, false, false⟩

/-- Witness for C5 at concrete records differing only in defaults. -/
theorem default_value_exclusion_witness :
    serialize_function sampleFunctionDef = serialize_function sampleFunctionNoDef ∧
      serialize_method sampleMethodM = serialize_method sampleMethodM2 ∧
      constructor_signature sampleMethodM = constructor_signature sampleMethodM2 :=
  default_value_exclusion sampleFunctionDef sampleFunctionNoDef sampleMethodM sampleMethodM2
    sampleMethodM sampleMethodM2 rfl rfl rfl rfl (by decide) rfl rfl rfl rfl rfl rfl
    (by decide) (by decide)

/-- C6: for a module with non-empty function (operator) collections the
output reduces them to (name, argument-count) pairs sorted by
(name, argument-count); each entry holds exactly those two keys. -/
theorem function_operator_reduction (module : ModuleInfo)
    (hf : module.functions ≠ []) (ho : module.operators ≠ []) :
    (∃ ps : List (String × Nat),
      (serialize_module module).lookup "function_names" =
        some (.list (ps.map renderNameCount)) ∧
      ps.Perm (module.functions.map fun f => (f.name, f.args.length)) ∧
      ps.Pairwise pairLe) ∧
    (∃ ps : List (String × Nat),
      (serialize_module module).lookup "operator_names" =
        some (.list (ps.map renderNameCount)) ∧
      ps.Perm (module.operators.map fun f => (f.name, f.args.length)) ∧
      ps.Pairwise pairLe) := by
  constructor
  · refine ⟨sortPairs (module.functions.map fun f => (f.name, f.args.length)), ?_,
      sortPairs_perm _, sortPairs_sorted _⟩
    rw [module_lookup_function_names, List.isEmpty_eq_false.mpr hf]
    rfl
  · refine ⟨sortPairs (module.operators.map fun f => (f.name, f.args.length)), ?_,
      sortPairs_perm _, sortPairs_sorted _⟩
    rw [module_lookup_operator_names, List.isEmpty_eq_false.mpr ho]
    rfl

/-- A sample module with one function and one operator. -/
def sampleModuleFn : ModuleInfo :=
  ⟨"M", [], [], [], [], [], [], [], [sampleFunctionDef], [sampleFunctionNoDef]⟩

/-- Witness for C6 at a concrete module. -/
theorem function_operator_reduction_witness :
    sampleModuleFn.functions ≠ [] ∧
    ∃ ps : List (String × Nat),
      (serialize_module sampleModuleFn).lookup "function_names" =
        some (.list (ps.map renderNameCount)) ∧
      ps.Perm (sampleModuleFn.functions.map fun f => (f.name, f.args.length)) ∧
      ps.Pairwise pairLe :=
  ⟨by decide,
    (function_operator_reduction sampleModuleFn (by decide) (by decide)).1⟩

/-- A sample constructor whose argument has a name and a default value. -/
def sampleCtor : MethodInfo :=
  ⟨"W", "", [("x", "int", some "0")], false, false, false, false⟩

/-- A sample class with that single constructor. -/
def sampleCtorClass : ClassInfo :=
  ⟨"W", false, [], [sampleCtor], [], [], [], [], []⟩

/-- C7 counterexample: for a class whose single constructor takes the argument
("x", "int", default "0"), the emitted constructor detail holds only the
argument type list; the argument name "x" occurs nowhere in the canonical
class detail, so no (argument name, argument type) pairs (and no flags) are
emitted for constructors. -/
theorem constructor_full_detail_counterexample :
    (serialize_class sampleCtorClass).lookup "constructor_signatures" =
      some (.list [.dict [("arg_types", .list [.str "int"])]]) ∧
    (serialize_class sampleCtorClass).containsStr "x" = false := by
  constructor
  · rfl
  · rfl

/-- C7 amended: for every class with a non-empty constructor collection the
output emits, per constructor, only its ordered argument type list (argument
names, default values and flags are not emitted), with the entries sorted
lexicographically by the Python string rendering of the arg_types mapping. -/
theorem constructor_signatures_amended (cls : ClassInfo) (h : cls.constructors ≠ []) :
    ∃ sigs : List (List String),
      (serialize_class cls).lookup "constructor_signatures" =
        some (.list (sigs.map renderCtorSig)) ∧
      sigs.Perm (cls.constructors.map constructor_signature) ∧
      sigs.Pairwise (fun a b => pySigStr a ≤ pySigStr b) := by
  refine ⟨sortOn pySigStr (cls.constructors.map constructor_signature), ?_,
    sortOn_perm _ _, sortOn_sorted _ _⟩
  rw [class_lookup_ctor_sigs, List.isEmpty_eq_false.mpr h]
  rfl

/-- A constructor whose argument type contains a double quote. -/
def sampleCtorDQ : MethodInfo :=
  ⟨"W2", "", [("a", "x\x22", none)], false, false, false, false⟩

/-- A constructor whose argument type contains a single quote; Python repr
renders this type double-quoted, so its rendering sorts before the
single-quoted rendering of the type holding a double quote. -/
def sampleCtorSQ : MethodInfo :=
  ⟨"W2", "", [("b", "x\x27", none)], false, false, false, false⟩

/-- A class storing the two quote-bearing constructors in the order that the
sort must reverse. -/
def sampleQuoteClass : ClassInfo :=
  ⟨"W2", false, [], [sampleCtorDQ, sampleCtorSQ], [], [], [], [], []⟩

/-- Witness for the amended C7: the one-constructor class, plus the emitted
order on a class whose two constructor arg types differ only in quote kind
(repr's quote selection puts the single-quote-bearing type first, reversing
the stored order). -/
theorem constructor_signatures_amended_witness :
    sampleCtorClass.constructors ≠ [] ∧
    (∃ sigs : List (List String),
      (serialize_class sampleCtorClass).lookup "constructor_signatures" =
        some (.list (sigs.map renderCtorSig)) ∧
      sigs.Perm (sampleCtorClass.constructors.map constructor_signature) ∧
      sigs.Pairwise (fun a b => pySigStr a ≤ pySigStr b)) ∧
    (serialize_class sampleQuoteClass).lookup "constructor_signatures" =
      some (.list [renderCtorSig ["x\x27"], renderCtorSig ["x\x22"]]) := by
  refine ⟨by decide, constructor_signatures_amended sampleCtorClass (by decide), ?_⟩
  have hlt : pySigStr ["x\x27"] < pySigStr ["x\x22"] := by
    rw [String.lt_iff_toList_lt]
    decide
  have hsort : sortOn pySigStr (sampleQuoteClass.constructors.map constructor_signature) =
      [["x\x27"], ["x\x22"]] := by
    show sortOn pySigStr [["x\x22"], ["x\x27"]] = [["x\x27"], ["x\x22"]]
    unfold sortOn
    simp only [List.insertionSort, List.orderedInsert]
    rw [if_neg (not_le.mpr hlt)]
  rw [class_lookup_ctor_sigs, hsort]
  rfl

/-- C8 counterexample: a run whose serialization step fails terminates with a
non-zero status, yet the destination file (absent before the run) has been
created by then — partial output is left behind. -/
theorem partial_output_counterexample :
    (dump_parsed_pkl (some [sampleModuleA1]) (fun _ => none) "" "in.pkl" "out.yml" none).exitCode
      = 1 ∧
    (dump_parsed_pkl (some [sampleModuleA1]) (fun _ => none) "" "in.pkl" "out.yml" none).dest
      ≠ none := by
  constructor
  · rfl
  · intro h
    simp only [dump_parsed_pkl] at h
    cases h

/-- C8 amended: every failing step terminates the run with exit code 1; a
load/deserialization failure leaves the destination file untouched, while a
serialization failure leaves behind the destination file created (and
possibly partially written) before `yaml.dump` raised. -/
theorem failure_propagation (pickleResult : Option (List ModuleInfo))
    (yamlRender : Val → Option String) (partialOut pkl out : String) (dest : Option String) :
    (pickleResult = none →
      dump_parsed_pkl pickleResult yamlRender partialOut pkl out dest =
        ⟨1, dest, ["Loading " ++ pkl ++ "..."]⟩) ∧
    (∀ ms, pickleResult = some ms → yamlRender (buildOutput ms) = none →
      dump_parsed_pkl pickleResult yamlRender partialOut pkl out dest =
        ⟨1, some partialOut,
          ["Loading " ++ pkl ++ "...", "Found " ++ toString ms.length ++ " modules",
           "Serializing modules...", "Writing to " ++ out ++ "..."]⟩) ∧
    (∀ ms s, pickleResult = some ms → yamlRender (buildOutput ms) = some s →
      (dump_parsed_pkl pickleResult yamlRender partialOut pkl out dest).exitCode = 0 ∧
      (dump_parsed_pkl pickleResult yamlRender partialOut pkl out dest).dest = some s) := by
  refine ⟨?_, ?_, ?_⟩
  · rintro rfl
    rfl
  · rintro ms rfl hy
    unfold dump_parsed_pkl
    simp only [hy]
    rfl
  · rintro ms s rfl hy
    unfold dump_parsed_pkl
    simp only [hy]
    exact ⟨trivial, trivial⟩

/-- Witness for the amended C8: a concrete failing load leaves the prior
destination content in place. -/
theorem failure_propagation_witness :
    dump_parsed_pkl none (fun _ => none) "" "in.pkl" "out.yml" (some "old") =
      ⟨1, some "old", ["Loading in.pkl..."]⟩ :=
  (failure_propagation none (fun _ => none) "" "in.pkl" "out.yml" (some "old")).1 rfl

/-- C9: zero path arguments print the usage text to stdout and exit with code
1 with no file access (the result is the same for every filesystem and the
destination is untouched); a nonexistent snapshot path exits with code 1 and
creates no output file. -/
theorem usage_and_missing_file (pathExists : String → Bool)
    (pickleResult : Option (List ModuleInfo)) (yamlRender : Val → Option String)
    (partialOut : String) (dest : Option String) (prog p : String)
    (hmiss : pathExists p = false) :
    main_fn [prog] pathExists pickleResult yamlRender partialOut dest =
      ⟨1, dest, usageLines⟩ ∧
    main_fn [prog, p] pathExists pickleResult yamlRender partialOut dest =
      ⟨1, dest, ["Error: File not found: " ++ p]⟩ := by
  constructor
  · rfl
  · unfold main_fn
    simp [hmiss]

/-- Witness for C9 at a concrete invocation. -/
theorem usage_and_missing_file_witness :
    main_fn ["prog"] (fun _ => false) none (fun _ => none) "" none =
      ⟨1, none, usageLines⟩ ∧
    main_fn ["prog", "in.pkl"] (fun _ => false) none (fun _ => none) "" none =
      ⟨1, none, ["Error: File not found: in.pkl"]⟩ :=
  usage_and_missing_file (fun _ => false) none (fun _ => none) "" none "prog" "in.pkl" rfl

/-- C10: enum (label, value) pairs are emitted exactly as stored, in their
original order; two enums holding the same pairs in different stored orders
serialize differently. -/
theorem enum_values_as_stored (e₁ e₂ : EnumInfo)
    (hname : e₁.name = e₂.name) (hanon : e₁.anonymous = e₂.anonymous)
    (hne : e₁.values ≠ e₂.values) :
    ((serialize_enum e₁).lookup "values" =
      some (.list (e₁.values.map fun p => .list [.str p.1, .str p.2]))) ∧
    serialize_enum e₁ ≠ serialize_enum e₂ := by
  constructor
  · simp only [serialize_enum, Val.lookup]
    rw [lookupKey_cons_ne (by decide), lookupKey_cons_self]
  · intro hcontr
    apply hne
    unfold serialize_enum at hcontr
    simp only [Val.dict.injEq, List.cons.injEq, Prod.mk.injEq, Val.str.injEq, Val.list.injEq,
      Val.bool.injEq, and_true, true_and] at hcontr
    have hv : e₁.values.map (fun p => Val.list [.str p.1, .str p.2]) =
        e₂.values.map (fun p => Val.list [.str p.1, .str p.2]) := by tauto
    have hinj : Function.Injective
        fun p : String × String => Val.list [Val.str p.1, Val.str p.2] := by
      intro p q h
      simp only [Val.list.injEq, List.cons.injEq, Val.str.injEq, and_true] at h
      exact Prod.ext h.1 h.2
    exact List.map_injective_iff.mpr hinj hv

/-- A sample enum. -/
def sampleEnumE1 : EnumInfo := ⟨"E", [("A", "0"), ("B", "1")], false⟩

/-- The same enum with its value pairs stored in the other order. -/
def sampleEnumE2 : EnumInfo := ⟨"E", [("B", "1"), ("A", "0")], false⟩

/-- Witness for C10 at two concrete enums differing only in stored order. -/
theorem enum_values_as_stored_witness :
    sampleEnumE1.values ≠ sampleEnumE2.values ∧
      serialize_enum sampleEnumE1 ≠ serialize_enum sampleEnumE2 :=
  ⟨by decide, (enum_values_as_stored sampleEnumE1 sampleEnumE2 rfl rfl (by decide)).2⟩
